import Mathlib

/-!
Verification of the biometric attendance core of the `mca-backend` repository.

The development shallow-embeds the TypeScript source:

* `src/middleware/faceRecognition.ts` — the embedding matcher
  (`findBestMatch`, `compareFaces`).  Floating-point numbers are modelled as
  rationals; the external library function `faceapi.euclideanDistance` is an
  opaque parameter `dist` supplied by the caller, exactly as it is an
  external library import in the source.
* `src/services/fingerprintService.ts` — the WebAuthn assertion verifier
  (`verifyAssertion`, `isValidCredentialId`).  The Node `crypto` and `Buffer`
  primitives are an opaque `CryptoOracle` parameter; `Buffer.from(·, 'base64')`
  never throws in Node, while `JSON.parse` and `verify.verify` may, so those
  two return `Except`.
* `src/controllers/faceRecognitionController.ts` and
  `src/controllers/fingerprintController.ts` — the session state machine
  (`markAttendance`, `markAttendanceWithFingerprint`, `checkLoginStatus`,
  `checkLoginStatusWithFingerprint`, `getAbsentStudents`) over a list-backed
  model of the MongoDB `students` and `attendances` collections.  Timestamps
  are naturals counting milliseconds; `setHours(0,0,0,0)` day truncation is
  `dayStart`.
-/

namespace Mca

/-- Requested session action: the `'auto' | 'login' | 'logout'` union of the
`MarkAttendanceRequest` body. -/
inductive Action where
  | auto
  | login
  | logout
deriving DecidableEq

/-! ## Embedding matcher (`src/middleware/faceRecognition.ts`) -/

/-- One element of the `studentDescriptors` array passed to `findBestMatch`:
`{ _id, studentId, name, faceDescriptor }` (the Mongo `_id` is modelled as a
natural number). -/
structure StudentDescriptor where
  _id : Nat
  studentId : String
  name : String
  faceDescriptor : List ℚ
deriving DecidableEq

/-- The `bestMatch` record built inside the `findBestMatch` loop. -/
structure BestMatch where
  studentId : Nat
  studentIdString : String
  name : String
  confidence : ℚ
  distance : ℚ
deriving DecidableEq

/-- The `bestMatch` object literal assigned at lines 195–201 of the middleware:
confidence is `Math.max(0, 1 - (distance / 1.0))`. -/
def mkBestMatch (dist : List ℚ → List ℚ → ℚ) (probeDescriptor : List ℚ)
    (student : StudentDescriptor) : BestMatch :=
  { studentId := student._id
    studentIdString := student.studentId
    name := student.name
    confidence := max 0 (1 - dist probeDescriptor student.faceDescriptor / 1)
    distance := dist probeDescriptor student.faceDescriptor }

/-- The `for` loop of `findBestMatch`: `bestMatch` starts as `null` and
`bestDistance` as `Infinity`; a candidate replaces the current best exactly
when `distance < threshold && distance < bestDistance`.  `bestDistance` always
equals the current best's `distance` (infinity when there is none), so it is
represented by the `Option BestMatch` accumulator alone. -/
def findBestMatchLoop (dist : List ℚ → List ℚ → ℚ) (probeDescriptor : List ℚ)
    (threshold : ℚ) : List StudentDescriptor → Option BestMatch → Option BestMatch
  | [], best => best
  | student :: rest, best =>
    let d := dist probeDescriptor student.faceDescriptor
    let keep : Bool :=
      decide (d < threshold) &&
        (match best with
         | none => true
         | some b => decide (d < b.distance))
    findBestMatchLoop dist probeDescriptor threshold rest
      (if keep then some (mkBestMatch dist probeDescriptor student) else best)

/-- `findBestMatch(probeDescriptor, studentDescriptors, threshold)` of the face
middleware (the source defaults `threshold` to `0.6`; callers pass it
explicitly). -/
def findBestMatch (dist : List ℚ → List ℚ → ℚ) (probeDescriptor : List ℚ)
    (studentDescriptors : List StudentDescriptor) (threshold : ℚ) : Option BestMatch :=
  findBestMatchLoop dist probeDescriptor threshold studentDescriptors none

/-- Result record of `compareFaces`; the source field `match` is a Lean keyword
and is rendered `matched`. -/
structure CompareResult where
  matched : Bool
  confidence : ℚ
  distance : ℚ
deriving DecidableEq

/-- `compareFaces(descriptor1, descriptor2, threshold)` of the face middleware:
`{ match: distance < threshold, confidence: max(0, 1 - distance/1.0), distance }`. -/
def compareFaces (dist : List ℚ → List ℚ → ℚ) (descriptor1 descriptor2 : List ℚ)
    (threshold : ℚ) : CompareResult :=
  let distance := dist descriptor1 descriptor2
  { matched := decide (distance < threshold)
    confidence := max 0 (1 - distance / 1)
    distance := distance }

/-- The loop result is `none` iff it started from `none` and no candidate's
distance is strictly below the threshold. -/
lemma findBestMatchLoop_eq_none (dist : List ℚ → List ℚ → ℚ) (probe : List ℚ) (θ : ℚ)
    (cands : List StudentDescriptor) (best : Option BestMatch) :
    findBestMatchLoop dist probe θ cands best = none ↔
      best = none ∧ ∀ s ∈ cands, ¬ dist probe s.faceDescriptor < θ := by
  induction cands generalizing best with
  | nil => simp [findBestMatchLoop]
  | cons s rest ih =>
    simp only [findBestMatchLoop]
    by_cases hd : dist probe s.faceDescriptor < θ
    · cases best with
      | none => rw [if_pos (by simp [hd]), ih]; simp [hd]
      | some b =>
        by_cases hb : dist probe s.faceDescriptor < b.distance
        · rw [if_pos (by simp [hd, hb]), ih]; simp [hd]
        · rw [if_neg (by simp [hb]), ih]; simp [hd]
    · cases best with
      | none => rw [if_neg (by simp [hd]), ih]; simp [hd, not_lt.mp hd]
      | some b => rw [if_neg (by simp [hd]), ih]; simp [hd]

/-- A `some` loop result is either the initial accumulator or was built by
`mkBestMatch` from a candidate whose distance is strictly below the
threshold. -/
lemma findBestMatchLoop_some_origin (dist : List ℚ → List ℚ → ℚ) (probe : List ℚ) (θ : ℚ)
    (cands : List StudentDescriptor) (best : Option BestMatch) (m : BestMatch)
    (h : findBestMatchLoop dist probe θ cands best = some m) :
    best = some m ∨ ∃ s ∈ cands,
      dist probe s.faceDescriptor < θ ∧ m = mkBestMatch dist probe s := by
  induction cands generalizing best with
  | nil =>
    simp [findBestMatchLoop] at h
    simp [h]
  | cons s rest ih =>
    simp only [findBestMatchLoop] at h
    by_cases hd : dist probe s.faceDescriptor < θ
    · cases best with
      | none =>
        rw [if_pos (by simp [hd])] at h
        rcases ih _ h with h' | ⟨s', hs', hθ', hm'⟩
        · exact Or.inr ⟨s, by simp, hd, (Option.some.inj h').symm⟩
        · exact Or.inr ⟨s', by simp [hs'], hθ', hm'⟩
      | some b =>
        by_cases hb : dist probe s.faceDescriptor < b.distance
        · rw [if_pos (by simp [hd, hb])] at h
          rcases ih _ h with h' | ⟨s', hs', hθ', hm'⟩
          · exact Or.inr ⟨s, by simp, hd, (Option.some.inj h').symm⟩
          · exact Or.inr ⟨s', by simp [hs'], hθ', hm'⟩
        · rw [if_neg (by simp [hb])] at h
          rcases ih _ h with h' | ⟨s', hs', hθ', hm'⟩
          · exact Or.inl h'
          · exact Or.inr ⟨s', by simp [hs'], hθ', hm'⟩
    · rw [if_neg (by simp [hd])] at h
      rcases ih _ h with h' | ⟨s', hs', hθ', hm'⟩
      · exact Or.inl h'
      · exact Or.inr ⟨s', by simp [hs'], hθ', hm'⟩

/-- Minimality of the loop result: its distance is at most the initial best's
distance, and at most the distance of every candidate below threshold. -/
lemma findBestMatchLoop_min (dist : List ℚ → List ℚ → ℚ) (probe : List ℚ) (θ : ℚ)
    (cands : List StudentDescriptor) (best : Option BestMatch) (m : BestMatch)
    (h : findBestMatchLoop dist probe θ cands best = some m) :
    (∀ b, best = some b → m.distance ≤ b.distance) ∧
      ∀ s ∈ cands, dist probe s.faceDescriptor < θ →
        m.distance ≤ dist probe s.faceDescriptor := by
  induction cands generalizing best with
  | nil =>
    simp [findBestMatchLoop] at h
    simp [h]
  | cons s rest ih =>
    simp only [findBestMatchLoop] at h
    by_cases hd : dist probe s.faceDescriptor < θ
    · cases best with
      | none =>
        rw [if_pos (by simp [hd])] at h
        obtain ⟨ih₁, ih₂⟩ := ih _ h
        have hm : m.distance ≤ dist probe s.faceDescriptor := by
          simpa [mkBestMatch] using ih₁ (mkBestMatch dist probe s) rfl
        refine ⟨by simp, ?_⟩
        intro x hx hxθ
        rcases List.mem_cons.mp hx with rfl | hx'
        · exact hm
        · exact ih₂ x hx' hxθ
      | some b =>
        by_cases hb : dist probe s.faceDescriptor < b.distance
        · rw [if_pos (by simp [hd, hb])] at h
          obtain ⟨ih₁, ih₂⟩ := ih _ h
          have hm : m.distance ≤ dist probe s.faceDescriptor := by
            simpa [mkBestMatch] using ih₁ (mkBestMatch dist probe s) rfl
          refine ⟨?_, ?_⟩
          · intro b' hb'
            obtain rfl : b = b' := Option.some.inj hb'
            exact le_of_lt (lt_of_le_of_lt hm hb)
          · intro x hx hxθ
            rcases List.mem_cons.mp hx with rfl | hx'
            · exact hm
            · exact ih₂ x hx' hxθ
        · rw [if_neg (by simp [hb])] at h
          obtain ⟨ih₁, ih₂⟩ := ih _ h
          have hm : m.distance ≤ b.distance := ih₁ b rfl
          refine ⟨?_, ?_⟩
          · intro b' hb'
            obtain rfl : b = b' := Option.some.inj hb'
            exact hm
          · intro x hx hxθ
            rcases List.mem_cons.mp hx with rfl | hx'
            · exact le_trans hm (not_lt.mp hb)
            · exact ih₂ x hx' hxθ
    · cases best with
      | none =>
        rw [if_neg (by simp [hd])] at h
        obtain ⟨ih₁, ih₂⟩ := ih _ h
        refine ⟨ih₁, ?_⟩
        intro x hx hxθ
        rcases List.mem_cons.mp hx with rfl | hx'
        · exact absurd hxθ hd
        · exact ih₂ x hx' hxθ
      | some b =>
        rw [if_neg (by simp [hd])] at h
        obtain ⟨ih₁, ih₂⟩ := ih _ h
        refine ⟨ih₁, ?_⟩
        intro x hx hxθ
        rcases List.mem_cons.mp hx with rfl | hx'
        · exact absurd hxθ hd
        · exact ih₂ x hx' hxθ

/-- C3: `findBestMatch` returns `none` exactly when every candidate's distance
is ≥ the threshold (strict inequality at the threshold, so an empty candidate
list also yields `none`); otherwise the returned match has the smallest
distance among all candidates and that distance is strictly below the
threshold. -/
theorem findBestMatch_threshold_spec (dist : List ℚ → List ℚ → ℚ) (probe : List ℚ)
    (cands : List StudentDescriptor) (θ : ℚ) :
    (findBestMatch dist probe cands θ = none ↔
        ∀ s ∈ cands, θ ≤ dist probe s.faceDescriptor) ∧
      ∀ m, findBestMatch dist probe cands θ = some m →
        m.distance < θ ∧ (∃ s ∈ cands, dist probe s.faceDescriptor = m.distance) ∧
          ∀ s ∈ cands, m.distance ≤ dist probe s.faceDescriptor := by
  constructor
  · rw [findBestMatch, findBestMatchLoop_eq_none]
    simp [not_lt]
  · intro m hm
    rcases findBestMatchLoop_some_origin dist probe θ cands none m hm with h | ⟨s, hs, hθ, rfl⟩
    · exact absurd h (by simp)
    · have hmin := (findBestMatchLoop_min dist probe θ cands none _ hm).2
      refine ⟨by simpa [mkBestMatch] using hθ, ⟨s, hs, by simp [mkBestMatch]⟩, ?_⟩
      intro x hx
      by_cases hxθ : dist probe x.faceDescriptor < θ
      · exact hmin x hx hxθ
      · exact le_trans (le_of_lt (by simpa [mkBestMatch] using hθ)) (not_lt.mp hxθ)

/-- Sample candidate used to instantiate the matcher theorems. -/
def sampleDescriptor : StudentDescriptor :=
  { _id := 1, studentId := "MCA001", name := "Asha", faceDescriptor := [0] }

/-- Witness for C3, concrete scenario B of the spec: a single candidate at
distance exactly `0.6` against threshold `0.6` is rejected (`none`). -/
theorem findBestMatch_threshold_spec_witness :
    findBestMatch (fun _ _ => (0.6 : ℚ)) [] [sampleDescriptor] 0.6 = none :=
  (findBestMatch_threshold_spec (fun _ _ => (0.6 : ℚ)) [] [sampleDescriptor] 0.6).1.mpr
    (by intro s _; norm_num)

/-- C7: the confidence of a returned match equals `max 0 (1 - distance)` (so it
floors at 0 instead of going negative), and the accept/reject decision depends
only on raw distance versus threshold: a match is returned iff some candidate's
distance is strictly below the threshold, irrespective of confidence;
`compareFaces` derives its `match` flag and confidence the same way. -/
theorem findBestMatch_confidence_spec (dist : List ℚ → List ℚ → ℚ) (probe : List ℚ)
    (cands : List StudentDescriptor) (θ : ℚ) :
    (∀ m, findBestMatch dist probe cands θ = some m →
        m.confidence = max 0 (1 - m.distance)) ∧
      ((findBestMatch dist probe cands θ).isSome ↔
        ∃ s ∈ cands, dist probe s.faceDescriptor < θ) ∧
      ∀ d₁ d₂ : List ℚ,
        (compareFaces dist d₁ d₂ θ).confidence =
            max 0 (1 - (compareFaces dist d₁ d₂ θ).distance) ∧
          ((compareFaces dist d₁ d₂ θ).matched = true ↔ dist d₁ d₂ < θ) := by
  refine ⟨?_, ?_, ?_⟩
  · intro m hm
    rcases findBestMatchLoop_some_origin dist probe θ cands none m hm with h | ⟨s, _, _, rfl⟩
    · exact absurd h (by simp)
    · simp [mkBestMatch]
  · cases hr : findBestMatch dist probe cands θ with
    | none =>
      have hn := ((findBestMatchLoop_eq_none dist probe θ cands none).mp hr).2
      simp only [Option.isSome_none, Bool.false_eq_true, false_iff]
      rintro ⟨s, hs, hθ⟩
      exact hn s hs hθ
    | some m =>
      simp only [Option.isSome_some, true_iff]
      rcases findBestMatchLoop_some_origin dist probe θ cands none m hr with h | ⟨s, hs, hθ, rfl⟩
      · exact absurd h (by simp)
      · exact ⟨s, hs, hθ⟩
  · intro d₁ d₂
    simp [compareFaces]

/-- Candidate for the C7 witness (scenario A). -/
def sampleDescriptorA : StudentDescriptor :=
  { _id := 2, studentId := "MCA002", name := "Binu", faceDescriptor := [1] }

/-- The concrete match of scenario A: only candidate at distance `0.45`,
threshold `0.6`. -/
def scenarioAMatch : BestMatch :=
  { studentId := 2, studentIdString := "MCA002", name := "Binu",
    confidence := 0.55, distance := 0.45 }

lemma scenarioA_eval :
    findBestMatch (fun _ _ => (0.45 : ℚ)) [] [sampleDescriptorA] 0.6 =
      some scenarioAMatch := by
  show findBestMatchLoop _ _ _ _ _ = _
  norm_num [findBestMatchLoop, mkBestMatch, sampleDescriptorA, scenarioAMatch]

/-- Witness for C7, concrete scenario A: distance `0.45`, threshold `0.6`
yields a match whose confidence is `max 0 (1 - distance) = 0.55`. -/
theorem findBestMatch_confidence_spec_witness :
    scenarioAMatch.confidence = max 0 (1 - scenarioAMatch.distance) ∧
      scenarioAMatch.confidence = 0.55 :=
  ⟨(findBestMatch_confidence_spec (fun _ _ => (0.45 : ℚ)) [] [sampleDescriptorA] 0.6).1
      scenarioAMatch scenarioA_eval,
    by norm_num [scenarioAMatch]⟩

/-! ## Assertion verifier (`src/services/fingerprintService.ts`) -/

/-- The parsed `clientDataJSON` object; fields are optional because a JSON
object may lack them (JavaScript then yields `undefined`). -/
structure ClientData where
  challenge : Option String
  type : Option String
deriving DecidableEq

/-- The `fingerprintData` request body (`FingerprintVerificationRequest`). -/
structure FingerprintVerificationRequest where
  credentialId : String
  authenticatorData : String
  clientDataJSON : String
  signature : String
deriving DecidableEq

/-- Opaque model of the Node primitives used by the service.  Byte buffers are
lists of naturals.  `Buffer.from(·, 'base64')` never throws in Node, so `b64`
is total; `JSON.parse` and `verify.verify` can throw, so they return
`Except`. -/
structure CryptoOracle where
  b64 : String → List Nat
  jsonParse : List Nat → Except String ClientData
  sha256 : List Nat → List Nat
  sigVerify : List Nat → List Nat → List Nat → Except String Bool

/-- The guard `challenge && clientData.challenge !== challenge` (lines 31–34):
in JavaScript an absent or empty expected challenge is falsy, so the
comparison is only made for a non-empty expected challenge. -/
def challengeRejected (challenge : Option String) (clientData : ClientData) : Bool :=
  match challenge with
  | some c => !(c == "") && !(clientData.challenge == some c)
  | none => false

/-- The `try` body of `FingerprintService.verifyAssertion`: decode the client
data, check the challenge and the `webauthn.get` type tag, rebuild the signed
byte string as `authenticatorData ++ SHA-256(clientDataJSON)` and verify the
signature with the stored public key.  An `error` value stands for a thrown
exception. -/
def verifyAssertionTry (o : CryptoOracle) (request : FingerprintVerificationRequest)
    (publicKey : String) (challenge : Option String) : Except String Bool :=
  let clientDataBuffer := o.b64 request.clientDataJSON
  match o.jsonParse clientDataBuffer with
  | .error e => .error e
  | .ok clientData =>
    if challengeRejected challenge clientData then .ok false
    else if clientData.type ≠ some "webauthn.get" then .ok false
    else
      let authDataBuffer := o.b64 request.authenticatorData
      let clientDataHash := o.sha256 clientDataBuffer
      let signedData := authDataBuffer ++ clientDataHash
      let signatureBuffer := o.b64 request.signature
      let publicKeyBuffer := o.b64 publicKey
      o.sigVerify publicKeyBuffer signedData signatureBuffer

/-- `FingerprintService.verifyAssertion`: the surrounding `try/catch` maps any
thrown exception to `false`, so the caller always receives a boolean. -/
def verifyAssertion (o : CryptoOracle) (request : FingerprintVerificationRequest)
    (publicKey : String) (challenge : Option String) : Bool :=
  match verifyAssertionTry o request publicKey challenge with
  | .ok b => b
  | .error _ => false

/-- `FingerprintService.isValidCredentialId`: the decoded id's byte length
must lie in `[16, 1024]`. -/
def isValidCredentialId (o : CryptoOracle) (credentialId : String) : Bool :=
  decide (16 ≤ (o.b64 credentialId).length) && decide ((o.b64 credentialId).length ≤ 1024)

/-- C5: `verifyAssertion` is a total boolean function — a thrown exception
anywhere in the body is caught and becomes `false` — and it returns `true`
exactly when the client data parses, the expected challenge (when supplied and
non-empty) matches, the type tag is `webauthn.get`, and the signature verifies
over the concatenation of the raw authenticator data and the SHA-256 hash of
the raw client-data payload; consequently every decoding, parsing,
challenge-mismatch, type-tag or cryptographic failure yields `false`. -/
theorem verifyAssertion_spec (o : CryptoOracle) (r : FingerprintVerificationRequest)
    (pk : String) (ch : Option String) :
    verifyAssertion o r pk ch = true ↔
      ∃ cd, o.jsonParse (o.b64 r.clientDataJSON) = .ok cd ∧
        (∀ c, ch = some c → c ≠ "" → cd.challenge = some c) ∧
        cd.type = some "webauthn.get" ∧
        o.sigVerify (o.b64 pk) (o.b64 r.authenticatorData ++ o.sha256 (o.b64 r.clientDataJSON))
          (o.b64 r.signature) = .ok true := by
  cases hp : o.jsonParse (o.b64 r.clientDataJSON) with
  | error e =>
    constructor
    · intro hfalse
      simp [verifyAssertion, verifyAssertionTry, hp] at hfalse
    · rintro ⟨cd', h1, _, _, _⟩
      exact absurd h1 (by simp)
  | ok cd =>
    have hunfold : verifyAssertion o r pk ch =
        (match (if challengeRejected ch cd then Except.ok false
                else if cd.type ≠ some "webauthn.get" then (Except.ok false : Except String Bool)
                else o.sigVerify (o.b64 pk)
                  (o.b64 r.authenticatorData ++ o.sha256 (o.b64 r.clientDataJSON))
                  (o.b64 r.signature)) with
         | .ok b => b
         | .error _ => false) := by
      simp only [verifyAssertion, verifyAssertionTry, hp]
    have hch : challengeRejected ch cd = false ↔
        ∀ c, ch = some c → c ≠ "" → cd.challenge = some c := by
      cases ch with
      | none => simp [challengeRejected]
      | some c =>
        by_cases hc : c = ""
        · simp [challengeRejected, hc]
        · simp [challengeRejected, hc]
    by_cases hrej : challengeRejected ch cd = true
    · rw [hunfold, if_pos hrej]
      constructor
      · intro hfalse; simp at hfalse
      · rintro ⟨cd', h1, h2, _, _⟩
        obtain rfl : cd = cd' := Except.ok.inj h1
        exact absurd (hch.mpr h2) (by simp [hrej])
    · rw [hunfold, if_neg hrej]
      replace hrej : challengeRejected ch cd = false := by
        cases hb : challengeRejected ch cd
        · rfl
        · exact absurd hb hrej
      by_cases hty : cd.type = some "webauthn.get"
      · rw [if_neg (by simp [hty])]
        cases hv : o.sigVerify (o.b64 pk)
            (o.b64 r.authenticatorData ++ o.sha256 (o.b64 r.clientDataJSON))
            (o.b64 r.signature) with
        | error e =>
          constructor
          · intro hfalse; simp at hfalse
          · rintro ⟨cd', h1, _, _, h4⟩
            exact absurd h4 (by simp)
        | ok b =>
          cases b with
          | false =>
            constructor
            · intro hfalse; simp at hfalse
            · rintro ⟨cd', h1, _, _, h4⟩
              exact absurd h4 (by simp)
          | true =>
            constructor
            · intro _
              exact ⟨cd, rfl, hch.mp hrej, hty, rfl⟩
            · intro _; rfl
      · rw [if_pos (by simp [hty])]
        constructor
        · intro hfalse; simp at hfalse
        · rintro ⟨cd', h1, _, h3, _⟩
          obtain rfl : cd = cd' := Except.ok.inj h1
          exact absurd h3 hty

/-- An oracle on which every verification step succeeds, used to instantiate
the verifier theorem. -/
def happyOracle : CryptoOracle :=
  { b64 := fun _ => List.replicate 16 0
    jsonParse := fun _ => .ok { challenge := none, type := some "webauthn.get" }
    sha256 := fun _ => []
    sigVerify := fun _ _ _ => .ok true }

/-- A concrete fingerprint assertion request. -/
def sampleRequest : FingerprintVerificationRequest :=
  { credentialId := "Q3JlZERlbW8xMjM0NTY=", authenticatorData := "YXV0aA==",
    clientDataJSON := "Y2xpZW50", signature := "c2ln" }

/-- Witness for C5: on a concrete oracle where parsing, the type tag and the
signature all succeed and no challenge is supplied, `verifyAssertion` returns
`true` via the characterization. -/
theorem verifyAssertion_spec_witness :
    verifyAssertion happyOracle sampleRequest "pk" none = true :=
  (verifyAssertion_spec happyOracle sampleRequest "pk" none).mpr
    ⟨{ challenge := none, type := some "webauthn.get" }, rfl,
      fun c hc => absurd hc (by simp), rfl, rfl⟩

/-! ## Attendance data model and session state machine
(`src/controllers/faceRecognitionController.ts`,
`src/controllers/fingerprintController.ts`, `src/models/Attendance.ts`) -/

/-- Milliseconds per calendar day. -/
def msPerDay : Nat := 86400000

/-- `setHours(0, 0, 0, 0)`: truncate a millisecond timestamp to the start of
its calendar day in the single canonical time reference of the model. -/
def dayStart (t : Nat) : Nat := t - t % msPerDay

/-- A document of the `students` collection (the fields the controllers read);
`sid` is the Mongo `_id`. -/
structure Student where
  sid : Nat
  studentId : String
  name : String
  phone : String
  faceDescriptor : List ℚ
  fingerprintCredentialId : Option String
  fingerprintPublicKey : Option String
  fingerprintCounter : Option Nat
  isActive : Bool
  enrolledAt : Nat
deriving DecidableEq

/-- A document of the `attendances` collection.  `timeIn` is optional because
the controllers defensively test `existingAttendance.timeIn` even though the
schema defaults it; `confidence` is optional because the schema declares it
`required: false`. -/
structure AttendanceEntry where
  entryId : Nat
  student : Nat
  studentId : String
  date : Nat
  timeIn : Option Nat
  timeOut : Option Nat
  status : String
  confidence : Option ℚ
  biometricMethod : String
  location : String
  notes : Option String
deriving DecidableEq

/-- List-backed model of the MongoDB state; `nextId` supplies fresh `_id`s for
inserted attendance documents.  The `(student, date)` index of the attendance
schema is not declared unique, so inserting never fails and duplicates are
representable. -/
structure DB where
  students : List Student
  entries : List AttendanceEntry
  nextId : Nat
deriving DecidableEq

/-- `Attendance.findOne({ student, date: { $gte: today } })` — the first stored
entry for the student dated at or after the given day start. -/
def findTodayEntry (db : DB) (student : Nat) (today : Nat) : Option AttendanceEntry :=
  db.entries.find? fun e => e.student == student && decide (today ≤ e.date)

/-- `Math.floor(duration / (1000 * 60 * 60))`; `Math.floor` of the real
quotient is `Int.fdiv`. -/
def durationHours (duration : ℤ) : ℤ := duration.fdiv 3600000

/-- `Math.floor((duration % (1000 * 60 * 60)) / (1000 * 60))`; the JavaScript
`%` is the truncated remainder `Int.tmod`. -/
def durationMinutes (duration : ℤ) : ℤ := (duration.tmod 3600000).fdiv 60000

/-- Payload of the emitted `attendance:marked` event (the fields relevant to
the claims). -/
structure AttendanceEvent where
  studentId : String
  timeIn : Option Nat
  confidence : ℚ
  action : String
deriving DecidableEq

/-- Session-machine responses of `markAttendance` /
`markAttendanceWithFingerprint`:
* `alreadyCompletedToday` — "You have already completed your attendance for
  today" (auto action, closed entry), echoing the entry's times;
* `mustLoginFirst` — "You must login first before logging out";
* `alreadyLoggedOut` — "You have already logged out for today";
* `logoutSuccess` — logout with `duration = now - timeIn` and the hours /
  minutes shown in the message;
* `loginSuccess` — a new entry was created with `timeIn = now`. -/
inductive MarkResponse where
  | alreadyCompletedToday (timeIn : Option Nat) (timeOut : Option Nat)
  | mustLoginFirst
  | alreadyLoggedOut (timeIn : Option Nat) (timeOut : Option Nat)
  | logoutSuccess (timeIn : Nat) (timeOut : Nat) (duration : ℤ) (hours : ℤ) (minutes : ℤ)
  | loginSuccess (timeIn : Nat)
deriving DecidableEq

/-- The `new Attendance({...})` constructor of the login paths: `date`
defaults to `Date.now` and the pre-save hook truncates it to the start of the
day, `timeIn := now`, no `timeOut`, status `present`; confidence, method tag,
location and notes are whatever the call site passes. -/
def newLoginEntry (entryId student : Nat) (studentId : String) (confidence : Option ℚ)
    (biometricMethod location : String) (notes : Option String) (now : Nat) : AttendanceEntry :=
  { entryId := entryId, student := student, studentId := studentId,
    date := dayStart now, timeIn := some now, timeOut := none,
    status := "present", confidence := confidence,
    biometricMethod := biometricMethod, location := location, notes := notes }

/-- The auto-detection block (controller lines 271–296): `auto` becomes
`logout` when the day's entry is open (`timeIn` set, `timeOut` unset), rejects
with `alreadyCompletedToday` when the day's entry has `timeOut` set, and
otherwise stays `login`; explicit actions pass through unchanged. -/
def resolveActionType (action : Action) (existing : Option AttendanceEntry) :
    Except MarkResponse Action :=
  match action with
  | .auto =>
    match existing with
    | some e =>
      if e.timeIn.isSome && e.timeOut == none then .ok .logout
      else if e.timeOut.isSome then .error (.alreadyCompletedToday e.timeIn e.timeOut)
      else .ok .login
    | none => .ok .login
  | a => .ok a

/-- The logout block (controller lines 299–381): reject when there is no entry
or no `timeIn`, reject when `timeOut` is already set, otherwise persist
`timeOut := now` on the found document and report the elapsed duration. -/
def handleLogout (db : DB) (studentId : String) (eventConfidence : ℚ)
    (existing : Option AttendanceEntry) (now : Nat) :
    DB × MarkResponse × Option AttendanceEvent :=
  match existing with
  | none => (db, .mustLoginFirst, none)
  | some e =>
    match e.timeIn with
    | none => (db, .mustLoginFirst, none)
    | some tIn =>
      match e.timeOut with
      | some tOut => (db, .alreadyLoggedOut (some tIn) (some tOut), none)
      | none =>
        let entries := db.entries.map fun x =>
          if x.entryId == e.entryId then { x with timeOut := some now } else x
        let duration : ℤ := (now : ℤ) - (tIn : ℤ)
        ({ db with entries := entries },
          .logoutSuccess tIn now duration (durationHours duration) (durationMinutes duration),
          some { studentId := studentId, timeIn := some tIn,
                 confidence := eventConfidence, action := "logout" })

/-- The session resolution shared verbatim by the face controller
(`markAttendance`) and the fingerprint controller
(`markAttendanceWithFingerprint`): load today's entry, run the auto-detection,
then either close the open entry or insert a new one.  The two call sites
differ only in the confidence stored on new entries, the confidence reported
in events, and the method tag. -/
def sessionTransition (db : DB) (student : Nat) (studentId : String)
    (entryConfidence : Option ℚ) (eventConfidence : ℚ) (biometricMethod : String)
    (action : Action) (location : String) (notes : Option String) (now : Nat) :
    DB × MarkResponse × Option AttendanceEvent :=
  let today := dayStart now
  let existing := findTodayEntry db student today
  match resolveActionType action existing with
  | .error r => (db, r, none)
  | .ok .logout => handleLogout db studentId eventConfidence existing now
  | .ok _ =>
    let e := newLoginEntry db.nextId student studentId entryConfidence biometricMethod
      location notes now
    ({ db with entries := db.entries ++ [e], nextId := db.nextId + 1 },
      .loginSuccess now,
      some { studentId := studentId, timeIn := some now,
             confidence := eventConfidence, action := "login" })

/-- `markAttendance` of the face controller, after identity resolution
(`m` is the successful `findBestMatch` result): stores the matcher confidence
on new entries and reports it in events, method tag `face`. -/
def markAttendance (db : DB) (m : BestMatch) (action : Action) (location : String)
    (notes : Option String) (now : Nat) : DB × MarkResponse × Option AttendanceEvent :=
  sessionTransition db m.studentId m.studentIdString (some m.confidence) m.confidence
    "face" action location notes now

/-- Responses of the fingerprint controller around the session machine. -/
inductive FpResponse where
  | fingerprintRequired
  | invalidCredentialId
  | noMatchingStudent
  | verificationFailed
  | mark (r : MarkResponse)
deriving DecidableEq

/-- `markAttendanceWithFingerprint`: validate the credential id, look up the
active student owning it, verify the WebAuthn assertion (a missing stored
public key makes `Buffer.from(undefined)` throw inside the verifier's `try`,
hence `false`), bump the stored counter, then run the shared session
resolution with method tag `fingerprint`, no stored confidence, and the fixed
event confidence `1.0`. -/
def markAttendanceWithFingerprint (o : CryptoOracle) (db : DB)
    (fingerprintData : Option FingerprintVerificationRequest) (action : Action)
    (location : String) (notes : Option String) (now : Nat) :
    DB × FpResponse × Option AttendanceEvent :=
  match fingerprintData with
  | none => (db, .fingerprintRequired, none)
  | some fp =>
    if fp.credentialId == "" then (db, .fingerprintRequired, none)
    else if !(isValidCredentialId o fp.credentialId) then (db, .invalidCredentialId, none)
    else
      match db.students.find?
          (fun s => s.fingerprintCredentialId == some fp.credentialId && s.isActive) with
      | none => (db, .noMatchingStudent, none)
      | some student =>
        let isValid :=
          match student.fingerprintPublicKey with
          | some pk => verifyAssertion o fp pk none
          | none => false
        if !isValid then (db, .verificationFailed, none)
        else
          let db1 :=
            match student.fingerprintCounter with
            | some c =>
              { db with students := db.students.map fun x =>
                  if x.sid == student.sid then
                    { student with fingerprintCounter := some (c + 1) }
                  else x }
            | none => db
          let st := sessionTransition db1 student.sid student.studentId none 1
            "fingerprint" action location notes now
          (st.1, .mark st.2.1, st.2.2)

/-- Responses of the status-check endpoints. -/
inductive StatusResponse where
  | dataRequired
  | notRecognized
  | notLoggedIn (studentId : String)
  | loggedInStatus (studentId : String) (timeIn : Nat) (duration : ℤ)
  | loggedOutStatus (studentId : String) (timeIn : Nat) (duration : ℤ)
deriving DecidableEq

/-- The status computation shared verbatim by `checkLoginStatus` and
`checkLoginStatusWithFingerprint`: read today's entry and report logged-in /
logged-out state with the running or final duration. -/
def loginStatusFor (db : DB) (student : Nat) (studentId : String) (now : Nat) :
    StatusResponse :=
  match findTodayEntry db student (dayStart now) with
  | none => .notLoggedIn studentId
  | some e =>
    match e.timeIn with
    | none => .notLoggedIn studentId
    | some tIn =>
      match e.timeOut with
      | none => .loggedInStatus studentId tIn ((now : ℤ) - (tIn : ℤ))
      | some tOut => .loggedOutStatus studentId tIn ((tOut : ℤ) - (tIn : ℤ))

/-- `checkLoginStatus` of the face controller after identity resolution: a
read-only report of today's session state. -/
def checkLoginStatus (db : DB) (matchResult : Option BestMatch) (now : Nat) :
    DB × StatusResponse :=
  match matchResult with
  | none => (db, .notRecognized)
  | some m => (db, loginStatusFor db m.studentId m.studentIdString now)

/-- `checkLoginStatusWithFingerprint`: look up the active student owning the
credential id and report today's session state, reading only. -/
def checkLoginStatusWithFingerprint (db : DB)
    (fingerprintData : Option FingerprintVerificationRequest) (now : Nat) :
    DB × StatusResponse :=
  match fingerprintData with
  | none => (db, .dataRequired)
  | some fp =>
    if fp.credentialId == "" then (db, .dataRequired)
    else
      match db.students.find?
          (fun s => s.fingerprintCredentialId == some fp.credentialId && s.isActive) with
      | none => (db, .notRecognized)
      | some s => (db, loginStatusFor db s.sid s.studentId now)

/-- `getAbsentStudents` (controller lines 728–775): the target day defaults to
yesterday; active students with `enrolledAt <= nextDay` and no attendance
entry dated inside the target day are reported absent (WhatsApp link
generation is an external concern and omitted). -/
def getAbsentStudents (db : DB) (dateParam : Option Nat) (now : Nat) : List Student :=
  let targetDate := dayStart (match dateParam with | some d => d | none => now - msPerDay)
  let nextDay := targetDate + msPerDay
  let allStudents := db.students.filter fun s =>
    s.isActive && decide (s.enrolledAt ≤ nextDay)
  let presentStudents := (db.entries.filter fun e =>
    decide (targetDate ≤ e.date) && decide (e.date < nextDay)).map (·.student)
  allStudents.filter fun s => !(presentStudents.contains s.sid)

/-! ## Step lemmas for the session machine -/

/-- An explicit `login` action never consults the existing entry: it always
inserts a fresh document and succeeds. -/
lemma sessionTransition_login_eq (db : DB) (student : Nat) (studentId : String)
    (eConf : Option ℚ) (evConf : ℚ) (method loc : String) (notes : Option String) (now : Nat) :
    sessionTransition db student studentId eConf evConf method .login loc notes now =
      ({ db with
          entries := db.entries ++
            [newLoginEntry db.nextId student studentId eConf method loc notes now],
          nextId := db.nextId + 1 },
        .loginSuccess now,
        some { studentId := studentId, timeIn := some now,
               confidence := evConf, action := "login" }) := rfl

/-- `auto` with no entry for the day behaves as `login`. -/
lemma sessionTransition_auto_none (db : DB) (student : Nat) (studentId : String)
    (eConf : Option ℚ) (evConf : ℚ) (method loc : String) (notes : Option String) (now : Nat)
    (h : findTodayEntry db student (dayStart now) = none) :
    sessionTransition db student studentId eConf evConf method .auto loc notes now =
      ({ db with
          entries := db.entries ++
            [newLoginEntry db.nextId student studentId eConf method loc notes now],
          nextId := db.nextId + 1 },
        .loginSuccess now,
        some { studentId := studentId, timeIn := some now,
               confidence := evConf, action := "login" }) := by
  simp [sessionTransition, resolveActionType, h]

/-- `auto` with an open entry (`timeIn` set, `timeOut` unset) behaves as
`logout`: it closes the entry and reports `duration = now - timeIn`. -/
lemma sessionTransition_auto_open (db : DB) (student : Nat) (studentId : String)
    (eConf : Option ℚ) (evConf : ℚ) (method loc : String) (notes : Option String) (now : Nat)
    (e : AttendanceEntry) (tIn : Nat)
    (h : findTodayEntry db student (dayStart now) = some e)
    (hIn : e.timeIn = some tIn) (hOut : e.timeOut = none) :
    sessionTransition db student studentId eConf evConf method .auto loc notes now =
      ({ db with entries := db.entries.map fun x =>
            if x.entryId == e.entryId then { x with timeOut := some now } else x },
        .logoutSuccess tIn now ((now : ℤ) - (tIn : ℤ))
          (durationHours ((now : ℤ) - (tIn : ℤ))) (durationMinutes ((now : ℤ) - (tIn : ℤ))),
        some { studentId := studentId, timeIn := some tIn,
               confidence := evConf, action := "logout" }) := by
  simp [sessionTransition, resolveActionType, handleLogout, h, hIn, hOut]

/-- `auto` with a closed entry (`timeOut` set) rejects with
`alreadyCompletedToday`, leaving the database untouched. -/
lemma sessionTransition_auto_closed (db : DB) (student : Nat) (studentId : String)
    (eConf : Option ℚ) (evConf : ℚ) (method loc : String) (notes : Option String) (now : Nat)
    (e : AttendanceEntry) (tOut : Nat)
    (h : findTodayEntry db student (dayStart now) = some e)
    (hOut : e.timeOut = some tOut) :
    sessionTransition db student studentId eConf evConf method .auto loc notes now =
      (db, .alreadyCompletedToday e.timeIn e.timeOut, none) := by
  simp [sessionTransition, resolveActionType, h, hOut]

/-- Explicit `logout` with no entry for the day rejects with
`mustLoginFirst`. -/
lemma sessionTransition_logout_none (db : DB) (student : Nat) (studentId : String)
    (eConf : Option ℚ) (evConf : ℚ) (method loc : String) (notes : Option String) (now : Nat)
    (h : findTodayEntry db student (dayStart now) = none) :
    sessionTransition db student studentId eConf evConf method .logout loc notes now =
      (db, .mustLoginFirst, none) := by
  simp [sessionTransition, resolveActionType, handleLogout, h]

/-- Explicit `logout` against an entry with no `timeIn` rejects with
`mustLoginFirst`. -/
lemma sessionTransition_logout_noTimeIn (db : DB) (student : Nat) (studentId : String)
    (eConf : Option ℚ) (evConf : ℚ) (method loc : String) (notes : Option String) (now : Nat)
    (e : AttendanceEntry)
    (h : findTodayEntry db student (dayStart now) = some e) (hIn : e.timeIn = none) :
    sessionTransition db student studentId eConf evConf method .logout loc notes now =
      (db, .mustLoginFirst, none) := by
  simp [sessionTransition, resolveActionType, handleLogout, h, hIn]

/-- Explicit `logout` against a closed entry rejects with
`alreadyLoggedOut`. -/
lemma sessionTransition_logout_closed (db : DB) (student : Nat) (studentId : String)
    (eConf : Option ℚ) (evConf : ℚ) (method loc : String) (notes : Option String) (now : Nat)
    (e : AttendanceEntry) (tIn tOut : Nat)
    (h : findTodayEntry db student (dayStart now) = some e)
    (hIn : e.timeIn = some tIn) (hOut : e.timeOut = some tOut) :
    sessionTransition db student studentId eConf evConf method .logout loc notes now =
      (db, .alreadyLoggedOut (some tIn) (some tOut), none) := by
  simp [sessionTransition, resolveActionType, handleLogout, h, hIn, hOut]

/-- Explicit `logout` against an open entry closes it, setting
`timeOut := now` on the stored document and reporting
`duration = now - timeIn`. -/
lemma sessionTransition_logout_open (db : DB) (student : Nat) (studentId : String)
    (eConf : Option ℚ) (evConf : ℚ) (method loc : String) (notes : Option String) (now : Nat)
    (e : AttendanceEntry) (tIn : Nat)
    (h : findTodayEntry db student (dayStart now) = some e)
    (hIn : e.timeIn = some tIn) (hOut : e.timeOut = none) :
    sessionTransition db student studentId eConf evConf method .logout loc notes now =
      ({ db with entries := db.entries.map fun x =>
            if x.entryId == e.entryId then { x with timeOut := some now } else x },
        .logoutSuccess tIn now ((now : ℤ) - (tIn : ℤ))
          (durationHours ((now : ℤ) - (tIn : ℤ))) (durationMinutes ((now : ℤ) - (tIn : ℤ))),
        some { studentId := studentId, timeIn := some tIn,
               confidence := evConf, action := "logout" }) := by
  simp [sessionTransition, resolveActionType, handleLogout, h, hIn, hOut]

/-- After a login inserted its entry, the day's lookup on any timestamp of the
same day finds that entry. -/
lemma findTodayEntry_after_login (db : DB) (student : Nat) (studentId : String)
    (eConf : Option ℚ) (method loc : String) (notes : Option String) (t₁ t : Nat)
    (h0 : findTodayEntry db student (dayStart t₁) = none) (ht : dayStart t = dayStart t₁) :
    findTodayEntry
        { db with
          entries := db.entries ++
            [newLoginEntry db.nextId student studentId eConf method loc notes t₁],
          nextId := db.nextId + 1 } student (dayStart t) =
      some (newLoginEntry db.nextId student studentId eConf method loc notes t₁) := by
  simp only [findTodayEntry] at h0 ⊢
  rw [ht, List.find?_append, h0]
  simp [newLoginEntry]

/-- Setting `timeOut` on the found entry does not change which entry the day's
lookup finds, because the lookup only reads `student` and `date`. -/
lemma findTodayEntry_after_update (db : DB) (student : Nat) (e : AttendanceEntry)
    (tOut today : Nat) (hf : findTodayEntry db student today = some e) :
    findTodayEntry
        { db with entries := db.entries.map fun x =>
            if x.entryId == e.entryId then { x with timeOut := some tOut } else x }
        student today = some { e with timeOut := some tOut } := by
  simp only [findTodayEntry] at hf ⊢
  rw [List.find?_map]
  have hcomp : ((fun x => x.student == student && decide (today ≤ x.date)) ∘
      fun x => if x.entryId == e.entryId then { x with timeOut := some tOut } else x) =
      fun x : AttendanceEntry => x.student == student && decide (today ≤ x.date) := by
    funext x
    by_cases hx : (x.entryId == e.entryId) = true
    · simp [Function.comp, hx]
    · simp [Function.comp, hx]
  rw [hcomp, hf]
  simp

/-- C1 (amended): the ledger does not enforce per-(identity, day) uniqueness —
the login path never consults the existing entry and entry insertion never
fails — so two consecutive explicit `login` actions both succeed and leave two
entries, the second reporting a fresh login instead of an `AlreadyLoggedIn`
rejection; on the same day the two entries carry the same `(student, date)`
pair. -/
theorem login_twice_two_entries (db : DB) (m : BestMatch) (loc : String)
    (notes : Option String) (t₁ t₂ : Nat) (hday : dayStart t₂ = dayStart t₁) :
    (markAttendance db m .login loc notes t₁).2.1 = .loginSuccess t₁ ∧
    (markAttendance (markAttendance db m .login loc notes t₁).1 m .login loc notes t₂).2.1 =
      .loginSuccess t₂ ∧
    (markAttendance (markAttendance db m .login loc notes t₁).1 m .login loc notes t₂).1.entries =
      db.entries ++
        [newLoginEntry db.nextId m.studentId m.studentIdString (some m.confidence)
          "face" loc notes t₁,
         newLoginEntry (db.nextId + 1) m.studentId m.studentIdString (some m.confidence)
          "face" loc notes t₂] ∧
    (newLoginEntry db.nextId m.studentId m.studentIdString (some m.confidence)
        "face" loc notes t₁).student =
      (newLoginEntry (db.nextId + 1) m.studentId m.studentIdString (some m.confidence)
        "face" loc notes t₂).student ∧
    (newLoginEntry db.nextId m.studentId m.studentIdString (some m.confidence)
        "face" loc notes t₁).date =
      (newLoginEntry (db.nextId + 1) m.studentId m.studentIdString (some m.confidence)
        "face" loc notes t₂).date := by
  refine ⟨?_, ?_, ?_, rfl, ?_⟩
  · simp only [markAttendance, sessionTransition_login_eq]
  · simp only [markAttendance, sessionTransition_login_eq]
  · simp only [markAttendance, sessionTransition_login_eq]
    simp
  · simp only [newLoginEntry]
    exact hday.symm

/-- The concrete match and empty database used by the session
counterexamples and witnesses. -/
def demoMatch : BestMatch :=
  { studentId := 7, studentIdString := "MCA007", name := "Gita",
    confidence := 1, distance := 0 }

/-- The empty database. -/
def emptyDb : DB := { students := [], entries := [], nextId := 0 }

/-- Witness for C1's amended statement at a concrete input: two logins at
`t = 1000` and `t = 2000` of the same day, the second succeeding as a login. -/
theorem login_twice_two_entries_witness :
    dayStart 2000 = dayStart 1000 ∧
      (markAttendance (markAttendance emptyDb demoMatch .login "Main Campus" none 1000).1
          demoMatch .login "Main Campus" none 2000).2.1 = .loginSuccess 2000 :=
  ⟨rfl, (login_twice_two_entries emptyDb demoMatch "Main Campus" none 1000 2000 rfl).2.1⟩

/-- Counterexample to C1 as stated: on a fresh day, two consecutive `login`
actions leave the ledger with two entries for the same student and day, and
the second call reports a successful login, not an `AlreadyLoggedIn`
rejection; the create operation did not fail. -/
theorem login_twice_counterexample :
    (markAttendance (markAttendance emptyDb demoMatch .login "Main Campus" none 1000).1
        demoMatch .login "Main Campus" none 2000).1.entries.length = 2 ∧
    (markAttendance (markAttendance emptyDb demoMatch .login "Main Campus" none 1000).1
        demoMatch .login "Main Campus" none 2000).2.1 = .loginSuccess 2000 ∧
    ∀ e ∈ (markAttendance (markAttendance emptyDb demoMatch .login "Main Campus" none 1000).1
        demoMatch .login "Main Campus" none 2000).1.entries,
      e.student = 7 ∧ e.date = 0 := by
  refine ⟨rfl, rfl, ?_⟩
  intro e he
  simp only [markAttendance, sessionTransition_login_eq] at he
  simp [emptyDb, newLoginEntry, demoMatch] at he
  rcases he with he | he <;> simp [he, newLoginEntry, demoMatch, dayStart, msPerDay]

/-- C2: under the `auto` action, the session machine logs in when no entry
exists for the day, logs out when the day's entry is open (`timeIn` set,
`timeOut` unset), and rejects with `alreadyCompletedToday` when the day's
entry is closed; hence on a fresh day the sequence auto, auto, auto yields a
login, then a logout with `duration = t₂ - t₁`, then an
`alreadyCompletedToday` rejection. -/
theorem auto_action_spec (db : DB) (m : BestMatch) (loc : String) (notes : Option String) :
    (∀ now, findTodayEntry db m.studentId (dayStart now) = none →
      markAttendance db m .auto loc notes now =
        ({ db with
            entries := db.entries ++
              [newLoginEntry db.nextId m.studentId m.studentIdString (some m.confidence)
                "face" loc notes now],
            nextId := db.nextId + 1 },
          .loginSuccess now,
          some { studentId := m.studentIdString, timeIn := some now,
                 confidence := m.confidence, action := "login" })) ∧
    (∀ now e tIn, findTodayEntry db m.studentId (dayStart now) = some e →
      e.timeIn = some tIn → e.timeOut = none →
      (markAttendance db m .auto loc notes now).2.1 =
        .logoutSuccess tIn now ((now : ℤ) - (tIn : ℤ))
          (durationHours ((now : ℤ) - (tIn : ℤ))) (durationMinutes ((now : ℤ) - (tIn : ℤ)))) ∧
    (∀ now e tOut, findTodayEntry db m.studentId (dayStart now) = some e →
      e.timeOut = some tOut →
      markAttendance db m .auto loc notes now = (db, .alreadyCompletedToday e.timeIn e.timeOut, none)) ∧
    (∀ t₁ t₂ t₃, dayStart t₂ = dayStart t₁ → dayStart t₃ = dayStart t₁ →
      findTodayEntry db m.studentId (dayStart t₁) = none →
      (markAttendance db m .auto loc notes t₁).2.1 = .loginSuccess t₁ ∧
      (markAttendance (markAttendance db m .auto loc notes t₁).1 m .auto loc notes t₂).2.1 =
        .logoutSuccess t₁ t₂ ((t₂ : ℤ) - (t₁ : ℤ))
          (durationHours ((t₂ : ℤ) - (t₁ : ℤ))) (durationMinutes ((t₂ : ℤ) - (t₁ : ℤ))) ∧
      (markAttendance (markAttendance (markAttendance db m .auto loc notes t₁).1
          m .auto loc notes t₂).1 m .auto loc notes t₃).2.1 =
        .alreadyCompletedToday (some t₁) (some t₂)) := by
  refine ⟨?_, ?_, ?_, ?_⟩
  · intro now h
    rw [markAttendance, sessionTransition_auto_none _ _ _ _ _ _ _ _ _ h]
  · intro now e tIn h hIn hOut
    rw [markAttendance, sessionTransition_auto_open _ _ _ _ _ _ _ _ _ _ _ h hIn hOut]
  · intro now e tOut h hOut
    rw [markAttendance, sessionTransition_auto_closed _ _ _ _ _ _ _ _ _ _ _ h hOut]
  · intro t₁ t₂ t₃ h2 h3 h0
    have step1 := sessionTransition_auto_none db m.studentId m.studentIdString
      (some m.confidence) m.confidence "face" loc notes t₁ h0
    have hf2 := findTodayEntry_after_login db m.studentId m.studentIdString
      (some m.confidence) "face" loc notes t₁ t₂ h0 h2
    have step2 := sessionTransition_auto_open _ m.studentId m.studentIdString
      (some m.confidence) m.confidence "face" loc notes t₂ _ t₁ hf2 rfl rfl
    have hf3' := findTodayEntry_after_update _ m.studentId _ t₂ (dayStart t₂) hf2
    have h32 : dayStart t₃ = dayStart t₂ := h3.trans h2.symm
    rw [← h32] at hf3'
    have step3 := sessionTransition_auto_closed _ m.studentId m.studentIdString
      (some m.confidence) m.confidence "face" loc notes t₃ _ t₂ hf3' rfl
    refine ⟨?_, ?_, ?_⟩
    · simp only [markAttendance]
      rw [step1]
    · simp only [markAttendance]
      rw [step1]
      dsimp only
      rw [step2]
    · simp only [markAttendance]
      rw [step1]
      dsimp only
      rw [step2]
      dsimp only
      rw [step3]
      rfl

/-- Witness for C2: the full auto cycle on the empty database at
`t₁ = 1000`, `t₂ = 2000`, `t₃ = 3000` of the same day. -/
theorem auto_action_spec_witness :
    (markAttendance emptyDb demoMatch .auto "Main Campus" none 1000).2.1 =
        .loginSuccess 1000 ∧
      (markAttendance (markAttendance emptyDb demoMatch .auto "Main Campus" none 1000).1
          demoMatch .auto "Main Campus" none 2000).2.1 =
        .logoutSuccess 1000 2000 ((2000 : ℤ) - (1000 : ℤ))
          (durationHours ((2000 : ℤ) - (1000 : ℤ)))
          (durationMinutes ((2000 : ℤ) - (1000 : ℤ))) ∧
      (markAttendance (markAttendance (markAttendance emptyDb demoMatch
          .auto "Main Campus" none 1000).1 demoMatch .auto "Main Campus" none 2000).1
          demoMatch .auto "Main Campus" none 3000).2.1 =
        .alreadyCompletedToday (some 1000) (some 2000) :=
  (auto_action_spec emptyDb demoMatch "Main Campus" none).2.2.2 1000 2000 3000 rfl rfl rfl

/-- C4: under the explicit `logout` action, the session machine rejects with
`mustLoginFirst` when no entry exists or the entry has no `timeIn`, rejects
with `alreadyLoggedOut` when the entry's `timeOut` is already set, and
otherwise sets `timeOut := now` on the stored entry and reports
`duration = now - timeIn` together with its hour/minute breakdown. -/
theorem logout_action_spec (db : DB) (m : BestMatch) (loc : String)
    (notes : Option String) (now : Nat) :
    (findTodayEntry db m.studentId (dayStart now) = none →
      markAttendance db m .logout loc notes now = (db, .mustLoginFirst, none)) ∧
    (∀ e, findTodayEntry db m.studentId (dayStart now) = some e → e.timeIn = none →
      markAttendance db m .logout loc notes now = (db, .mustLoginFirst, none)) ∧
    (∀ e tIn tOut, findTodayEntry db m.studentId (dayStart now) = some e →
      e.timeIn = some tIn → e.timeOut = some tOut →
      markAttendance db m .logout loc notes now =
        (db, .alreadyLoggedOut (some tIn) (some tOut), none)) ∧
    (∀ e tIn, findTodayEntry db m.studentId (dayStart now) = some e →
      e.timeIn = some tIn → e.timeOut = none →
      markAttendance db m .logout loc notes now =
        ({ db with entries := db.entries.map fun x =>
            if x.entryId == e.entryId then { x with timeOut := some now } else x },
          .logoutSuccess tIn now ((now : ℤ) - (tIn : ℤ))
            (durationHours ((now : ℤ) - (tIn : ℤ))) (durationMinutes ((now : ℤ) - (tIn : ℤ))),
          some { studentId := m.studentIdString, timeIn := some tIn,
                 confidence := m.confidence, action := "logout" })) := by
  refine ⟨?_, ?_, ?_, ?_⟩
  · intro h
    rw [markAttendance, sessionTransition_logout_none _ _ _ _ _ _ _ _ _ h]
  · intro e h hIn
    rw [markAttendance, sessionTransition_logout_noTimeIn _ _ _ _ _ _ _ _ _ _ h hIn]
  · intro e tIn tOut h hIn hOut
    rw [markAttendance, sessionTransition_logout_closed _ _ _ _ _ _ _ _ _ _ _ _ h hIn hOut]
  · intro e tIn h hIn hOut
    rw [markAttendance, sessionTransition_logout_open _ _ _ _ _ _ _ _ _ _ _ h hIn hOut]

/-- The open attendance entry of scenario D: login at 09:00 (`32400000` ms
into the day). -/
def scenarioDEntry : AttendanceEntry :=
  { entryId := 0, student := 7, studentId := "MCA007", date := 0,
    timeIn := some 32400000, timeOut := none, status := "present",
    confidence := none, biometricMethod := "face", location := "Main Campus",
    notes := none }

/-- Database holding scenario D's open entry. -/
def scenarioDDb : DB := { students := [], entries := [scenarioDEntry], nextId := 1 }

/-- Witness for C4, concrete scenario D: login 09:00, logout 17:30
(`63000000` ms) gives duration `30600000` ms = 8 h 30 m. -/
theorem logout_action_spec_witness :
    (markAttendance scenarioDDb demoMatch .logout "Main Campus" none 63000000).2.1 =
      .logoutSuccess 32400000 63000000 30600000 8 30 := by
  have h := (logout_action_spec scenarioDDb demoMatch "Main Campus" none 63000000).2.2.2
    scenarioDEntry 32400000 (by decide) rfl rfl
  rw [h]
  decide

/-- C10: the status-check operations are read-only — for every input (missing
data, unrecognized caller, not logged in, logged in, logged out) the database
component of the result is the input database: no attendance entry and no
student record is created, modified or deleted. -/
theorem checkLoginStatus_readonly (db : DB) (matchResult : Option BestMatch)
    (fingerprintData : Option FingerprintVerificationRequest) (now : Nat) :
    (checkLoginStatus db matchResult now).1 = db ∧
      (checkLoginStatusWithFingerprint db fingerprintData now).1 = db := by
  constructor
  · cases matchResult <;> rfl
  · cases fingerprintData with
    | none => rfl
    | some fp =>
      simp only [checkLoginStatusWithFingerprint]
      by_cases h : (fp.credentialId == "") = true
      · rw [if_pos h]
      · rw [if_neg h]
        cases db.students.find?
            (fun s => s.fingerprintCredentialId == some fp.credentialId && s.isActive) <;> rfl

/-- A student whose enrollment timestamp is exactly midnight of the day after
the target day (`enrolledAt = msPerDay`, target day start `0`). -/
def lateEnrollee : Student :=
  { sid := 3, studentId := "MCA003", name := "Chaya", phone := "911234567",
    faceDescriptor := [], fingerprintCredentialId := none,
    fingerprintPublicKey := none, fingerprintCounter := some 0,
    isActive := true, enrolledAt := 86400000 }

/-- C6 fails on the code at the day boundary: the absentee filter keeps
students with `enrolledAt <= nextDay`, `nextDay` being the first instant of
day D+1, so a student enrolled exactly at midnight of day D+1 — after the
target day, against the code's own comment "Only students enrolled before or
on the target date" — is listed absent for day D. -/
theorem absentees_include_nextDay_enrollee :
    getAbsentStudents { students := [lateEnrollee], entries := [], nextId := 0 }
        (some 0) 0 = [lateEnrollee] ∧
      lateEnrollee.enrolledAt = dayStart 0 + msPerDay := by
  decide

/-! ## Fingerprint controller lemmas -/

/-- `Forall₂` of a relation that holds on the diagonal. -/
lemma forall₂_self {α : Type} (R : α → α → Prop) :
    ∀ l : List α, (∀ x ∈ l, R x x) → List.Forall₂ R l l
  | [], _ => List.Forall₂.nil
  | a :: t, h =>
    List.Forall₂.cons (h a (by simp))
      (forall₂_self R t fun x hx => h x (by simp [hx]))

/-- `Forall₂` between a list and its pointwise image. -/
lemma forall₂_map_self {α : Type} (R : α → α → Prop) (f : α → α) :
    ∀ l : List α, (∀ x ∈ l, R x (f x)) → List.Forall₂ R l (l.map f)
  | [], _ => List.Forall₂.nil
  | a :: t, h =>
    List.Forall₂.cons (h a (by simp))
      (forall₂_map_self R f t fun x hx => h x (by simp [hx]))

/-- `handleLogout` never touches the `students` collection. -/
lemma handleLogout_students (db : DB) (studentId : String) (evConf : ℚ)
    (existing : Option AttendanceEntry) (now : Nat) :
    (handleLogout db studentId evConf existing now).1.students = db.students := by
  unfold handleLogout
  cases existing with
  | none => rfl
  | some e =>
    cases hIn : e.timeIn with
    | none => simp [hIn]
    | some tIn =>
      cases hOut : e.timeOut with
      | none => simp [hIn, hOut]
      | some tOut => simp [hIn, hOut]

/-- `handleLogout` never answers with a fresh-login response. -/
lemma handleLogout_ne_loginSuccess (db : DB) (studentId : String) (evConf : ℚ)
    (existing : Option AttendanceEntry) (now t : Nat) :
    (handleLogout db studentId evConf existing now).2.1 ≠ .loginSuccess t := by
  unfold handleLogout
  cases existing with
  | none => simp
  | some e =>
    cases hIn : e.timeIn with
    | none => simp [hIn]
    | some tIn =>
      cases hOut : e.timeOut with
      | none => simp [hIn, hOut]
      | some tOut => simp [hIn, hOut]

/-- The auto-detection only errors with `alreadyCompletedToday`. -/
lemma resolveActionType_error (action : Action) (existing : Option AttendanceEntry)
    (r : MarkResponse) (h : resolveActionType action existing = .error r) :
    ∃ tIn tOut, r = .alreadyCompletedToday tIn tOut := by
  cases action with
  | auto =>
    cases existing with
    | none => simp [resolveActionType] at h
    | some e =>
      by_cases h1 : (e.timeIn.isSome && e.timeOut == none) = true
      · simp [resolveActionType, h1] at h
      · by_cases h2 : e.timeOut.isSome = true
        · simp [resolveActionType, h1, h2] at h
          exact ⟨e.timeIn, e.timeOut, h.symm⟩
        · simp [resolveActionType, h1, h2] at h
  | login => simp [resolveActionType] at h
  | logout => simp [resolveActionType] at h

/-- The session machine does not touch the `students` collection. -/
lemma sessionTransition_students (db : DB) (student : Nat) (studentId : String)
    (eConf : Option ℚ) (evConf : ℚ) (method : String) (action : Action)
    (loc : String) (notes : Option String) (now : Nat) :
    (sessionTransition db student studentId eConf evConf method action loc notes now).1.students =
      db.students := by
  simp only [sessionTransition]
  cases hra : resolveActionType action (findTodayEntry db student (dayStart now)) with
  | error r => rfl
  | ok a =>
    cases a with
    | auto => rfl
    | login => rfl
    | logout => exact handleLogout_students _ _ _ _ _

/-- Inversion: a `loginSuccess now` response pins the whole session
transition to the entry-insertion branch. -/
lemma sessionTransition_login_inv (db : DB) (student : Nat) (studentId : String)
    (eConf : Option ℚ) (evConf : ℚ) (method : String) (action : Action)
    (loc : String) (notes : Option String) (now : Nat)
    (h : (sessionTransition db student studentId eConf evConf method action loc notes now).2.1 =
      .loginSuccess now) :
    sessionTransition db student studentId eConf evConf method action loc notes now =
      ({ db with
          entries := db.entries ++
            [newLoginEntry db.nextId student studentId eConf method loc notes now],
          nextId := db.nextId + 1 },
        .loginSuccess now,
        some { studentId := studentId, timeIn := some now,
               confidence := evConf, action := "login" }) := by
  simp only [sessionTransition] at h ⊢
  cases hra : resolveActionType action (findTodayEntry db student (dayStart now)) with
  | error r =>
    rw [hra] at h
    obtain ⟨tIn, tOut, rfl⟩ := resolveActionType_error _ _ _ hra
    simp at h
  | ok a =>
    cases a with
    | auto => rfl
    | login => rfl
    | logout =>
      rw [hra] at h
      exact absurd h (handleLogout_ne_loginSuccess _ _ _ _ _ _)

/-- C8: across the fingerprint attendance operation the stored credential
counters never decrease — every student record is either unchanged or has its
counter bumped by one — and a successful verification (any `mark` response)
of a credential whose owner has a stored counter `c` updates that owner's
record to counter `c + 1`, a strict increase. -/
theorem fingerprint_counter_monotone (o : CryptoOracle) (db : DB)
    (fingerprintData : Option FingerprintVerificationRequest) (action : Action)
    (loc : String) (notes : Option String) (now : Nat) :
    ((db.students.map fun s => s.sid).Nodup →
      List.Forall₂ (fun a b => b = a ∨ ∃ c, a.fingerprintCounter = some c ∧
          b = { a with fingerprintCounter := some (c + 1) })
        db.students
        (markAttendanceWithFingerprint o db fingerprintData action loc notes now).1.students) ∧
    (∀ fp s c r, fingerprintData = some fp →
      db.students.find?
          (fun x => x.fingerprintCredentialId == some fp.credentialId && x.isActive) = some s →
      s.fingerprintCounter = some c →
      (markAttendanceWithFingerprint o db fingerprintData action loc notes now).2.1 = .mark r →
      (markAttendanceWithFingerprint o db fingerprintData action loc notes now).1.students =
        db.students.map fun x =>
          if x.sid == s.sid then { s with fingerprintCounter := some (c + 1) } else x) := by
  constructor
  · intro huniq
    cases fingerprintData with
    | none => exact forall₂_self _ _ fun x _ => Or.inl rfl
    | some fp =>
      simp only [markAttendanceWithFingerprint]
      by_cases h1 : (fp.credentialId == "") = true
      · rw [if_pos h1]
        exact forall₂_self _ _ fun x _ => Or.inl rfl
      · rw [if_neg h1]
        by_cases h2 : (!isValidCredentialId o fp.credentialId) = true
        · rw [if_pos h2]
          exact forall₂_self _ _ fun x _ => Or.inl rfl
        · rw [if_neg h2]
          cases hs : db.students.find?
              (fun x => x.fingerprintCredentialId == some fp.credentialId && x.isActive) with
          | none => exact forall₂_self _ _ fun x _ => Or.inl rfl
          | some s =>
            dsimp only
            by_cases h3 : (!(match s.fingerprintPublicKey with
                | some pk => verifyAssertion o fp pk none
                | none => false)) = true
            · rw [if_pos h3]
              exact forall₂_self _ _ fun x _ => Or.inl rfl
            · rw [if_neg h3]
              cases hc : s.fingerprintCounter with
              | none =>
                dsimp only
                rw [sessionTransition_students]
                exact forall₂_self _ _ fun x _ => Or.inl rfl
              | some c =>
                dsimp only
                rw [sessionTransition_students]
                refine forall₂_map_self _ _ _ ?_
                intro x hx
                by_cases hsid : (x.sid == s.sid) = true
                · have hmem : s ∈ db.students := List.mem_of_find?_eq_some hs
                  have hxs : x = s :=
                    List.inj_on_of_nodup_map huniq hx hmem (by simpa using hsid)
                  rw [if_pos hsid, hxs]
                  exact Or.inr ⟨c, hc, rfl⟩
                · rw [if_neg hsid]
                  exact Or.inl rfl
  · rintro fp s c r rfl hs hc hr
    simp only [markAttendanceWithFingerprint] at hr ⊢
    by_cases h1 : (fp.credentialId == "") = true
    · rw [if_pos h1] at hr
      simp at hr
    · rw [if_neg h1] at hr ⊢
      by_cases h2 : (!isValidCredentialId o fp.credentialId) = true
      · rw [if_pos h2] at hr
        simp at hr
      · rw [if_neg h2] at hr ⊢
        rw [hs] at hr ⊢
        dsimp only at hr ⊢
        by_cases h3 : (!(match s.fingerprintPublicKey with
            | some pk => verifyAssertion o fp pk none
            | none => false)) = true
        · rw [if_pos h3] at hr
          simp at hr
        · rw [if_neg h3] at hr ⊢
          rw [hc]
          dsimp only
          rw [sessionTransition_students]

/-- C9 (amended): an attendance entry created by fingerprint authentication
records method tag `fingerprint` and carries the caller's location and notes
through unmodified, but stores no confidence value (`confidence = none`); the
fixed sentinel confidence `1.0` appears only in the emitted
`attendance:marked` event, not on the entry. -/
theorem fingerprint_entry_fields (o : CryptoOracle) (db : DB)
    (fp : FingerprintVerificationRequest) (action : Action) (loc : String)
    (notes : Option String) (now : Nat) (s : Student)
    (hs : db.students.find?
        (fun x => x.fingerprintCredentialId == some fp.credentialId && x.isActive) = some s)
    (hr : (markAttendanceWithFingerprint o db (some fp) action loc notes now).2.1 =
      .mark (.loginSuccess now)) :
    (markAttendanceWithFingerprint o db (some fp) action loc notes now).1.entries =
        db.entries ++ [newLoginEntry db.nextId s.sid s.studentId none "fingerprint" loc notes now] ∧
      (markAttendanceWithFingerprint o db (some fp) action loc notes now).2.2 =
        some { studentId := s.studentId, timeIn := some now, confidence := 1, action := "login" } := by
  simp only [markAttendanceWithFingerprint] at hr ⊢
  by_cases h1 : (fp.credentialId == "") = true
  · rw [if_pos h1] at hr
    simp at hr
  · rw [if_neg h1] at hr ⊢
    by_cases h2 : (!isValidCredentialId o fp.credentialId) = true
    · rw [if_pos h2] at hr
      simp at hr
    · rw [if_neg h2] at hr ⊢
      rw [hs] at hr ⊢
      dsimp only at hr ⊢
      by_cases h3 : (!(match s.fingerprintPublicKey with
          | some pk => verifyAssertion o fp pk none
          | none => false)) = true
      · rw [if_pos h3] at hr
        simp at hr
      · rw [if_neg h3] at hr ⊢
        dsimp only at hr ⊢
        have hlog : (sessionTransition
            (match s.fingerprintCounter with
              | some c =>
                { db with students := db.students.map fun x =>
                    if x.sid == s.sid then { s with fingerprintCounter := some (c + 1) } else x }
              | none => db)
            s.sid s.studentId none 1 "fingerprint" action loc notes now).2.1 =
            .loginSuccess now := by
          cases hmk : (sessionTransition
              (match s.fingerprintCounter with
                | some c =>
                  { db with students := db.students.map fun x =>
                      if x.sid == s.sid then { s with fingerprintCounter := some (c + 1) } else x }
                | none => db)
              s.sid s.studentId none 1 "fingerprint" action loc notes now).2.1 with
          | loginSuccess t =>
            rw [hmk] at hr
            cases hr
            rfl
          | alreadyCompletedToday a b => rw [hmk] at hr; cases hr
          | mustLoginFirst => rw [hmk] at hr; cases hr
          | alreadyLoggedOut a b => rw [hmk] at hr; cases hr
          | logoutSuccess a b c d e => rw [hmk] at hr; cases hr
        have hinv := sessionTransition_login_inv _ s.sid s.studentId none 1 "fingerprint"
          action loc notes now hlog
        rw [hinv]
        cases hcnt : s.fingerprintCounter with
        | none => exact ⟨rfl, rfl⟩
        | some c => exact ⟨rfl, rfl⟩

/-- A student enrolled with a fingerprint credential set, stored counter 5. -/
def fpStudent : Student :=
  { sid := 9, studentId := "MCA009", name := "Hema", phone := "987654321",
    faceDescriptor := [], fingerprintCredentialId := some "cred",
    fingerprintPublicKey := some "pk", fingerprintCounter := some 5,
    isActive := true, enrolledAt := 0 }

/-- Database holding only `fpStudent` and no attendance entries. -/
def fpDb : DB := { students := [fpStudent], entries := [], nextId := 0 }

/-- A concrete assertion request carrying `fpStudent`'s credential id. -/
def fpRequest : FingerprintVerificationRequest :=
  { credentialId := "cred", authenticatorData := "auth",
    clientDataJSON := "client", signature := "sig" }

/-- Witness for C8 at a concrete input: a successful fingerprint login bumps
the stored counter from 5 to 6. -/
theorem fingerprint_counter_monotone_witness :
    (markAttendanceWithFingerprint happyOracle fpDb (some fpRequest) .login
        "Main Campus" (some "note") 1000).1.students =
      fpDb.students.map fun x =>
        if x.sid == fpStudent.sid then
          { fpStudent with fingerprintCounter := some (5 + 1) }
        else x :=
  (fingerprint_counter_monotone happyOracle fpDb (some fpRequest) .login
      "Main Campus" (some "note") 1000).2
    fpRequest fpStudent 5 (.loginSuccess 1000) rfl rfl rfl rfl

/-- Witness for C9's amended statement: the concrete fingerprint login creates
exactly the entry with method tag `fingerprint`, no stored confidence, and the
caller's location and notes, while the event reports confidence `1`. -/
theorem fingerprint_entry_fields_witness :
    (markAttendanceWithFingerprint happyOracle fpDb (some fpRequest) .login
          "Main Campus" (some "note") 1000).1.entries =
        fpDb.entries ++ [newLoginEntry fpDb.nextId fpStudent.sid fpStudent.studentId
          none "fingerprint" "Main Campus" (some "note") 1000] ∧
      (markAttendanceWithFingerprint happyOracle fpDb (some fpRequest) .login
          "Main Campus" (some "note") 1000).2.2 =
        some { studentId := fpStudent.studentId, timeIn := some 1000,
               confidence := 1, action := "login" } :=
  fingerprint_entry_fields happyOracle fpDb fpRequest .login "Main Campus"
    (some "note") 1000 fpStudent rfl rfl

/-- Counterexample to C9 as stated: the entry created by a successful
fingerprint login stores no confidence value at all (`confidence = none`,
not the claimed sentinel `1.0`); the fixed `1.0` appears only in the emitted
event. -/
theorem fingerprint_entry_no_confidence_counterexample :
    ((markAttendanceWithFingerprint happyOracle fpDb (some fpRequest) .login
          "Main Campus" (some "note") 1000).1.entries.map fun e => e.confidence) = [none] ∧
      ((markAttendanceWithFingerprint happyOracle fpDb (some fpRequest) .login
          "Main Campus" (some "note") 1000).1.entries.map fun e => e.biometricMethod) =
        ["fingerprint"] ∧
      (markAttendanceWithFingerprint happyOracle fpDb (some fpRequest) .login
          "Main Campus" (some "note") 1000).2.2 =
        some { studentId := "MCA009", timeIn := some 1000,
               confidence := 1, action := "login" } :=
  ⟨rfl, rfl, rfl⟩

end Mca
